import Mathlib

/-!
Shallow embedding of `tensorflow/python/client/session_benchmark.py`.

The file under verification is a microbenchmark script: `_benchmarkFeed` and
`_benchmarkFetch` each build a tiny graph, open a session against a target,
perform untimed warm-up executions, then time `iters` repeated `session.run`
calls and report the median wall time; `benchmarkGrpcSession` and
`benchmarkDirectSession` assemble four cases each (the former interleaving
`tf.Session.reset` calls).

The external framework (graph construction, session, clock, RNG) is modelled
as an injectable `Service` supplying the duration of each `session.run` call,
the value returned by `np.random.rand`, and optional exceptions for each
external call.  Each measurement call is embedded as a pure function from a
`Service` and a simulation state (wall clock, global run counter, RNG counter)
to an event trace, a final state, and an optional propagated error.  Wall
times are rationals (exact stand-ins for Python floats).
-/

namespace SessionBenchmark

/-- Which graph node a `session.run` call executes: the identity op of the
feed benchmark, the fetch of the variable's value, or the variable's
initializer. -/
inductive RunKind
  | noOp
  | fetchVar
  | initVar
deriving DecidableEq

/-- Observable events of a benchmark run: calls into the external framework
(`genPayload` for `np.random.rand`, `graphCreate`, `sessionOpen`,
`run`, `sessionClose`, `reset`) and the two reporting side effects
(`print` to standard output, `report` to the benchmark sink).
A `run` event records which node was executed, the payload bound to the
placeholder (if any), whether the call was bracketed by `time.time()`
measurements, and its start and stop timestamps. -/
inductive Ev
  | genPayload (v : List ℚ)
  | graphCreate
  | sessionOpen (tgt : String)
  | run (k : RunKind) (feed : Option (List ℚ)) (timed : Bool) (start stop : ℚ)
  | sessionClose
  | reset (tgt : String)
  | print (line : String)
  | report (name : String) (iters : Nat) (wallTime : ℚ)
deriving DecidableEq

/-- The injected external framework: the wall-clock duration of the k-th
`session.run` call of the whole simulation, the vector produced by the k-th
`np.random.rand` call, and the exception (if any) raised by graph
construction, session opening, or each individual `session.run`. -/
structure Service where
  dur : Nat → ℚ
  rand : Nat → List ℚ
  failGraph : Option String
  failOpen : Option String
  failRun : Nat → Option String

/-- A service in which no external call raises. -/
def Service.noFail (svc : Service) : Prop :=
  svc.failGraph = none ∧ svc.failOpen = none ∧ ∀ i, svc.failRun i = none

/-- Simulation state: the current wall-clock reading (as returned by
`time.time()`), the number of `session.run` calls issued so far, and the
number of `np.random.rand` calls issued so far. -/
structure St where
  clock : ℚ
  runIdx : Nat
  genIdx : Nat
deriving DecidableEq

/-- Outcome of the timed loop of a measurement call: events emitted, the
`times` list accumulated by `times.append(end_time - start_time)`, final
state, and the propagated exception if some `session.run` raised. -/
structure LoopOut where
  trace : List Ev
  times : List ℚ
  state : St
  err : Option String

/-- Outcome of a measurement call or suite: events, final state, propagated
exception. -/
structure BenchOut where
  trace : List Ev
  state : St
  err : Option String

/-- Insert into a sorted list (ascending). -/
def insertSorted (x : ℚ) : List ℚ → List ℚ
  | [] => [x]
  | y :: ys => if x ≤ y then x :: y :: ys else y :: insertSorted x ys

/-- Insertion sort, ascending. -/
def sortQ : List ℚ → List ℚ
  | [] => []
  | x :: xs => insertSorted x (sortQ xs)

/-- `np.median`: sort ascending; for odd length take the middle element, for
even length the mean of the two middle elements. -/
def npMedian (xs : List ℚ) : ℚ :=
  let s := sortQ xs
  let n := xs.length
  if n % 2 = 1 then s.getD (n / 2) 0
  else (s.getD (n / 2 - 1) 0 + s.getD (n / 2) 0) / 2

/-- Python's `"%f"` formatting of a rational: sign, integer part, a dot, and
six fractional digits (ties of the half-ulp rounding are approximated by
round-half-up). -/
def fmtFloat (q : ℚ) : String :=
  let n : ℤ := round (q * 1000000)
  let a : Nat := n.natAbs
  let fs : String := toString (a % 1000000)
  (if n < 0 then "-" else "") ++ toString (a / 1000000) ++ "." ++
    String.mk (List.replicate (6 - fs.length) '0') ++ fs

/-- The line written by `print("%s %d %f" % (name, size, np.median(times)))`. -/
def fmtLine (name : String) (size : Nat) (m : ℚ) : String :=
  name ++ " " ++ toString size ++ " " ++ fmtFloat m

/-- The timed loop shared by both measurement functions:
`for _ in xrange(n): start_time = time.time(); sess.run(...);
end_time = time.time(); times.append(end_time - start_time)`.
Each iteration issues one `session.run` of node `k` with payload `fv`; if the
service raises, the elapsed time is not appended and the exception
propagates. -/
def runLoop (svc : Service) (k : RunKind) (fv : Option (List ℚ)) :
    Nat → St → LoopOut
  | 0, s => ⟨[], [], s, none⟩
  | n + 1, s =>
      let start := s.clock
      let stop := s.clock + svc.dur s.runIdx
      let s1 : St := ⟨stop, s.runIdx + 1, s.genIdx⟩
      match svc.failRun s.runIdx with
      | some e => ⟨[Ev.run k fv true start stop], [], s1, some e⟩
      | none =>
          let rest := runLoop svc k fv n s1
          ⟨Ev.run k fv true start stop :: rest.trace,
           (stop - start) :: rest.times, rest.state, rest.err⟩

/-- Embedding of `SessionBenchmark._benchmarkFeed(name, target, size, iters)`:
generate the payload once, build the graph (placeholder plus identity op),
open the session, one untimed warm-up run with the payload fed, then `iters`
timed runs with the same payload fed; finally print the formatted line and
report the benchmark, computing `np.median(times)` once for each.  The
session is closed by the `with` block even when a run raises; on any raised
exception nothing is printed or reported. -/
def benchmarkFeed (svc : Service) (name target : String) (size iters : Nat)
    (s : St) : BenchOut :=
  let fv := svc.rand s.genIdx
  let s0 : St := ⟨s.clock, s.runIdx, s.genIdx + 1⟩
  match svc.failGraph with
  | some e => ⟨[Ev.genPayload fv, Ev.graphCreate], s0, some e⟩
  | none =>
    match svc.failOpen with
    | some e =>
        ⟨[Ev.genPayload fv, Ev.graphCreate, Ev.sessionOpen target], s0, some e⟩
    | none =>
      let wStart := s0.clock
      let wStop := s0.clock + svc.dur s0.runIdx
      let s1 : St := ⟨wStop, s0.runIdx + 1, s0.genIdx⟩
      match svc.failRun s0.runIdx with
      | some e =>
          ⟨[Ev.genPayload fv, Ev.graphCreate, Ev.sessionOpen target,
            Ev.run RunKind.noOp (some fv) false wStart wStop,
            Ev.sessionClose], s1, some e⟩
      | none =>
        let lo := runLoop svc RunKind.noOp (some fv) iters s1
        match lo.err with
        | some e =>
            ⟨Ev.genPayload fv :: Ev.graphCreate :: Ev.sessionOpen target ::
              Ev.run RunKind.noOp (some fv) false wStart wStop ::
              (lo.trace ++ [Ev.sessionClose]), lo.state, some e⟩
        | none =>
            let m1 := npMedian lo.times
            let m2 := npMedian lo.times
            ⟨Ev.genPayload fv :: Ev.graphCreate :: Ev.sessionOpen target ::
              Ev.run RunKind.noOp (some fv) false wStart wStop ::
              (lo.trace ++
                [Ev.sessionClose, Ev.print (fmtLine name size m1),
                 Ev.report name iters m2]), lo.state, none⟩

/-- Embedding of `SessionBenchmark._benchmarkFetch(name, target, size,
iters)`: build the graph (a variable initialized from `tf.random_normal`),
open the session, run the variable's initializer (untimed), one untimed
warm-up fetch, then `iters` timed fetches; finally print and report as in
the feed case. -/
def benchmarkFetch (svc : Service) (name target : String) (size iters : Nat)
    (s : St) : BenchOut :=
  match svc.failGraph with
  | some e => ⟨[Ev.graphCreate], s, some e⟩
  | none =>
    match svc.failOpen with
    | some e => ⟨[Ev.graphCreate, Ev.sessionOpen target], s, some e⟩
    | none =>
      let iStart := s.clock
      let iStop := s.clock + svc.dur s.runIdx
      let s1 : St := ⟨iStop, s.runIdx + 1, s.genIdx⟩
      match svc.failRun s.runIdx with
      | some e =>
          ⟨[Ev.graphCreate, Ev.sessionOpen target,
            Ev.run RunKind.initVar none false iStart iStop,
            Ev.sessionClose], s1, some e⟩
      | none =>
        let wStart := s1.clock
        let wStop := s1.clock + svc.dur s1.runIdx
        let s2 : St := ⟨wStop, s1.runIdx + 1, s1.genIdx⟩
        match svc.failRun s1.runIdx with
        | some e =>
            ⟨[Ev.graphCreate, Ev.sessionOpen target,
              Ev.run RunKind.initVar none false iStart iStop,
              Ev.run RunKind.fetchVar none false wStart wStop,
              Ev.sessionClose], s2, some e⟩
        | none =>
          let lo := runLoop svc RunKind.fetchVar none iters s2
          match lo.err with
          | some e =>
              ⟨Ev.graphCreate :: Ev.sessionOpen target ::
                Ev.run RunKind.initVar none false iStart iStop ::
                Ev.run RunKind.fetchVar none false wStart wStop ::
                (lo.trace ++ [Ev.sessionClose]), lo.state, some e⟩
          | none =>
              let m1 := npMedian lo.times
              let m2 := npMedian lo.times
              ⟨Ev.graphCreate :: Ev.sessionOpen target ::
                Ev.run RunKind.initVar none false iStart iStop ::
                Ev.run RunKind.fetchVar none false wStart wStop ::
                (lo.trace ++
                  [Ev.sessionClose, Ev.print (fmtLine name size m1),
                   Ev.report name iters m2]), lo.state, none⟩

/-- One step of a benchmark suite: a feed case, a fetch case, or a
`tf.Session.reset(target)` call. -/
inductive SuiteStep
  | feedCase (name target : String) (size iters : Nat)
  | fetchCase (name target : String) (size iters : Nat)
  | resetCall (target : String)
deriving DecidableEq

/-- Interpret one suite step. -/
def runStep (svc : Service) (s : St) : SuiteStep → BenchOut
  | SuiteStep.feedCase n t sz it => benchmarkFeed svc n t sz it s
  | SuiteStep.fetchCase n t sz it => benchmarkFetch svc n t sz it s
  | SuiteStep.resetCall t => ⟨[Ev.reset t], s, none⟩

/-- Interpret a suite: steps run in order; a raised exception aborts the
remaining steps and propagates. -/
def runSteps (svc : Service) : List SuiteStep → St → BenchOut
  | [], s => ⟨[], s, none⟩
  | st :: rest, s =>
      let o := runStep svc s st
      match o.err with
      | some e => ⟨o.trace, o.state, some e⟩
      | none =>
          let o2 := runSteps svc rest o.state
          ⟨o.trace ++ o2.trace, o2.state, o2.err⟩

/-- The call sequence of `SessionBenchmark.benchmarkGrpcSession`, with the
locally started server's target abstracted as `tgt`: four cases, each
followed by `tf.Session.reset(server.target)`. -/
def benchmarkGrpcSessionSteps (tgt : String) : List SuiteStep :=
  [SuiteStep.feedCase "benchmark_session_feed_grpc_4B" tgt 1 10000,
   SuiteStep.resetCall tgt,
   SuiteStep.feedCase "benchmark_session_feed_grpc_4MB" tgt (1 <<< 20) 100,
   SuiteStep.resetCall tgt,
   SuiteStep.fetchCase "benchmark_session_fetch_grpc_4B" tgt 1 20000,
   SuiteStep.resetCall tgt,
   SuiteStep.fetchCase "benchmark_session_fetch_grpc_4MB" tgt (1 <<< 20) 100,
   SuiteStep.resetCall tgt]

/-- The call sequence of `SessionBenchmark.benchmarkDirectSession`: four
cases against the empty target, no resets. -/
def benchmarkDirectSessionSteps : List SuiteStep :=
  [SuiteStep.feedCase "benchmark_session_feed_direct_4B" "" 1 5000,
   SuiteStep.feedCase "benchmark_session_feed_direct_4MB" "" (1 <<< 20) 200,
   SuiteStep.fetchCase "benchmark_session_fetch_direct_4B" "" 1 5000,
   SuiteStep.fetchCase "benchmark_session_fetch_direct_4MB" "" (1 <<< 20) 100]

/-- Embedding of `SessionBenchmark.benchmarkGrpcSession`. -/
def benchmarkGrpcSession (svc : Service) (tgt : String) (s : St) : BenchOut :=
  runSteps svc (benchmarkGrpcSessionSteps tgt) s

/-- Embedding of `SessionBenchmark.benchmarkDirectSession`. -/
def benchmarkDirectSession (svc : Service) (s : St) : BenchOut :=
  runSteps svc benchmarkDirectSessionSteps s

/-- The lines written to standard output in a trace. -/
def printsOf : List Ev → List String
  | [] => []
  | Ev.print m :: l => m :: printsOf l
  | Ev.genPayload _ :: l => printsOf l
  | Ev.graphCreate :: l => printsOf l
  | Ev.sessionOpen _ :: l => printsOf l
  | Ev.run _ _ _ _ _ :: l => printsOf l
  | Ev.sessionClose :: l => printsOf l
  | Ev.reset _ :: l => printsOf l
  | Ev.report _ _ _ :: l => printsOf l

/-- The `report_benchmark` records in a trace: name, iters, wall_time. -/
def reportsOf : List Ev → List (String × Nat × ℚ)
  | [] => []
  | Ev.report n i w :: l => (n, i, w) :: reportsOf l
  | Ev.genPayload _ :: l => reportsOf l
  | Ev.graphCreate :: l => reportsOf l
  | Ev.sessionOpen _ :: l => reportsOf l
  | Ev.run _ _ _ _ _ :: l => reportsOf l
  | Ev.sessionClose :: l => reportsOf l
  | Ev.reset _ :: l => reportsOf l
  | Ev.print _ :: l => reportsOf l

/-- The timed `session.run` events of a trace. -/
def timedRuns : List Ev → List Ev
  | [] => []
  | Ev.run k fv true a b :: l => Ev.run k fv true a b :: timedRuns l
  | Ev.run _ _ false _ _ :: l => timedRuns l
  | Ev.genPayload _ :: l => timedRuns l
  | Ev.graphCreate :: l => timedRuns l
  | Ev.sessionOpen _ :: l => timedRuns l
  | Ev.sessionClose :: l => timedRuns l
  | Ev.reset _ :: l => timedRuns l
  | Ev.print _ :: l => timedRuns l
  | Ev.report _ _ _ :: l => timedRuns l

/-- The untimed `session.run` events of a trace. -/
def untimedRuns : List Ev → List Ev
  | [] => []
  | Ev.run k fv false a b :: l => Ev.run k fv false a b :: untimedRuns l
  | Ev.run _ _ true _ _ :: l => untimedRuns l
  | Ev.genPayload _ :: l => untimedRuns l
  | Ev.graphCreate :: l => untimedRuns l
  | Ev.sessionOpen _ :: l => untimedRuns l
  | Ev.sessionClose :: l => untimedRuns l
  | Ev.reset _ :: l => untimedRuns l
  | Ev.print _ :: l => untimedRuns l
  | Ev.report _ _ _ :: l => untimedRuns l

/-- The elapsed-time deltas of the timed `session.run` events of a trace:
the time samples of the measurement, in order of recording. -/
def timedDeltas : List Ev → List ℚ
  | [] => []
  | Ev.run _ _ true a b :: l => (b - a) :: timedDeltas l
  | Ev.run _ _ false _ _ :: l => timedDeltas l
  | Ev.genPayload _ :: l => timedDeltas l
  | Ev.graphCreate :: l => timedDeltas l
  | Ev.sessionOpen _ :: l => timedDeltas l
  | Ev.sessionClose :: l => timedDeltas l
  | Ev.reset _ :: l => timedDeltas l
  | Ev.print _ :: l => timedDeltas l
  | Ev.report _ _ _ :: l => timedDeltas l

/-- The session-open and reset events of a trace, in order. -/
def openResetEvents : List Ev → List Ev
  | [] => []
  | Ev.sessionOpen t :: l => Ev.sessionOpen t :: openResetEvents l
  | Ev.reset t :: l => Ev.reset t :: openResetEvents l
  | Ev.genPayload _ :: l => openResetEvents l
  | Ev.graphCreate :: l => openResetEvents l
  | Ev.run _ _ _ _ _ :: l => openResetEvents l
  | Ev.sessionClose :: l => openResetEvents l
  | Ev.print _ :: l => openResetEvents l
  | Ev.report _ _ _ :: l => openResetEvents l

/-- The payload vectors generated (`np.random.rand` calls) in a trace. -/
def payloadGens : List Ev → List (List ℚ)
  | [] => []
  | Ev.genPayload v :: l => v :: payloadGens l
  | Ev.graphCreate :: l => payloadGens l
  | Ev.sessionOpen _ :: l => payloadGens l
  | Ev.run _ _ _ _ _ :: l => payloadGens l
  | Ev.sessionClose :: l => payloadGens l
  | Ev.reset _ :: l => payloadGens l
  | Ev.print _ :: l => payloadGens l
  | Ev.report _ _ _ :: l => payloadGens l

/-- The payload bound to the placeholder at each `session.run` of a trace,
in call order. -/
def runFeeds : List Ev → List (Option (List ℚ))
  | [] => []
  | Ev.run _ fv _ _ _ :: l => fv :: runFeeds l
  | Ev.genPayload _ :: l => runFeeds l
  | Ev.graphCreate :: l => runFeeds l
  | Ev.sessionOpen _ :: l => runFeeds l
  | Ev.sessionClose :: l => runFeeds l
  | Ev.reset _ :: l => runFeeds l
  | Ev.print _ :: l => runFeeds l
  | Ev.report _ _ _ :: l => runFeeds l

/-- The iteration counts of the benchmark cases of a suite, in order. -/
def caseIters (l : List SuiteStep) : List Nat :=
  l.filterMap fun st =>
    match st with
    | SuiteStep.feedCase _ _ _ it => some it
    | SuiteStep.fetchCase _ _ _ it => some it
    | SuiteStep.resetCall _ => none

/-- The payload sizes of the benchmark cases of a suite, in order. -/
def caseSizes (l : List SuiteStep) : List Nat :=
  l.filterMap fun st =>
    match st with
    | SuiteStep.feedCase _ _ sz _ => some sz
    | SuiteStep.fetchCase _ _ sz _ => some sz
    | SuiteStep.resetCall _ => none

/-- The measurement mode of each case of a suite (`true` = feed). -/
def caseIsFeed (l : List SuiteStep) : List Bool :=
  l.filterMap fun st =>
    match st with
    | SuiteStep.feedCase _ _ _ _ => some true
    | SuiteStep.fetchCase _ _ _ _ => some false
    | SuiteStep.resetCall _ => none

/-- The targets of the benchmark cases of a suite, in order. -/
def caseTargets (l : List SuiteStep) : List String :=
  l.filterMap fun st =>
    match st with
    | SuiteStep.feedCase _ t _ _ => some t
    | SuiteStep.fetchCase _ t _ _ => some t
    | SuiteStep.resetCall _ => none

/-- The targets of the reset calls of a suite, in order. -/
def resetTargets (l : List SuiteStep) : List String :=
  l.filterMap fun st =>
    match st with
    | SuiteStep.resetCall t => some t
    | _ => none

/-- A service whose calls all succeed, with unit run durations. -/
def svcUnit : Service :=
  ⟨fun _ => 1, fun _ => [0], none, none, fun _ => none⟩

/-- The initial simulation state. -/
def st0 : St := ⟨0, 0, 0⟩

theorem printsOf_append (l1 l2 : List Ev) :
    printsOf (l1 ++ l2) = printsOf l1 ++ printsOf l2 := by
  induction l1 with
  | nil => rfl
  | cons e t ih => cases e <;> simp [printsOf, ih]

theorem reportsOf_append (l1 l2 : List Ev) :
    reportsOf (l1 ++ l2) = reportsOf l1 ++ reportsOf l2 := by
  induction l1 with
  | nil => rfl
  | cons e t ih => cases e <;> simp [reportsOf, ih]

theorem timedRuns_append (l1 l2 : List Ev) :
    timedRuns (l1 ++ l2) = timedRuns l1 ++ timedRuns l2 := by
  induction l1 with
  | nil => rfl
  | cons e t ih =>
      cases e with
      | run k fv timed a b => cases timed <;> simp [timedRuns, ih]
      | _ => simp [timedRuns, ih]

theorem untimedRuns_append (l1 l2 : List Ev) :
    untimedRuns (l1 ++ l2) = untimedRuns l1 ++ untimedRuns l2 := by
  induction l1 with
  | nil => rfl
  | cons e t ih =>
      cases e with
      | run k fv timed a b => cases timed <;> simp [untimedRuns, ih]
      | _ => simp [untimedRuns, ih]

theorem timedDeltas_append (l1 l2 : List Ev) :
    timedDeltas (l1 ++ l2) = timedDeltas l1 ++ timedDeltas l2 := by
  induction l1 with
  | nil => rfl
  | cons e t ih =>
      cases e with
      | run k fv timed a b => cases timed <;> simp [timedDeltas, ih]
      | _ => simp [timedDeltas, ih]

theorem openResetEvents_append (l1 l2 : List Ev) :
    openResetEvents (l1 ++ l2) = openResetEvents l1 ++ openResetEvents l2 := by
  induction l1 with
  | nil => rfl
  | cons e t ih => cases e <;> simp [openResetEvents, ih]

theorem payloadGens_append (l1 l2 : List Ev) :
    payloadGens (l1 ++ l2) = payloadGens l1 ++ payloadGens l2 := by
  induction l1 with
  | nil => rfl
  | cons e t ih => cases e <;> simp [payloadGens, ih]

theorem runFeeds_append (l1 l2 : List Ev) :
    runFeeds (l1 ++ l2) = runFeeds l1 ++ runFeeds l2 := by
  induction l1 with
  | nil => rfl
  | cons e t ih => cases e <;> simp [runFeeds, ih]

theorem runLoop_err_none (svc : Service) (k : RunKind) (fv : Option (List ℚ))
    (hR : ∀ i, svc.failRun i = none) :
    ∀ (n : Nat) (s : St), (runLoop svc k fv n s).err = none := by
  intro n
  induction n with
  | zero => intro s; rfl
  | succ m ih =>
      intro s
      simp [runLoop, hR]
      exact ih _

theorem runLoop_trace_forall (svc : Service) (k : RunKind) (fv : Option (List ℚ)) :
    ∀ (n : Nat) (s : St), ∀ ev ∈ (runLoop svc k fv n s).trace,
      ∃ a b, ev = Ev.run k fv true a b := by
  intro n
  induction n with
  | zero => intro s ev h; simp [runLoop] at h
  | succ m ih =>
      intro s ev h
      rw [runLoop] at h
      cases hfail : svc.failRun s.runIdx with
      | some e =>
          rw [hfail] at h
          simp at h
          exact ⟨_, _, h⟩
      | none =>
          rw [hfail] at h
          simp at h
          rcases h with h | h
          · exact ⟨_, _, h⟩
          · exact ih _ ev h

theorem runLoop_times_length (svc : Service) (k : RunKind) (fv : Option (List ℚ))
    (hR : ∀ i, svc.failRun i = none) :
    ∀ (n : Nat) (s : St), (runLoop svc k fv n s).times.length = n := by
  intro n
  induction n with
  | zero => intro s; rfl
  | succ m ih =>
      intro s
      simp [runLoop, hR]
      exact ih _

theorem runLoop_trace_length (svc : Service) (k : RunKind) (fv : Option (List ℚ))
    (hR : ∀ i, svc.failRun i = none) :
    ∀ (n : Nat) (s : St), (runLoop svc k fv n s).trace.length = n := by
  intro n
  induction n with
  | zero => intro s; rfl
  | succ m ih =>
      intro s
      simp [runLoop, hR]
      exact ih _

theorem runLoop_timedDeltas (svc : Service) (k : RunKind) (fv : Option (List ℚ))
    (hR : ∀ i, svc.failRun i = none) :
    ∀ (n : Nat) (s : St),
      timedDeltas (runLoop svc k fv n s).trace = (runLoop svc k fv n s).times := by
  intro n
  induction n with
  | zero => intro s; rfl
  | succ m ih =>
      intro s
      simp [runLoop, hR, timedDeltas]
      exact ih _

theorem runLoop_trace_headQ (svc : Service) (k : RunKind) (fv : Option (List ℚ))
    (n : Nat) (s : St) :
    (runLoop svc k fv (n + 1) s).trace.head? =
      some (Ev.run k fv true s.clock (s.clock + svc.dur s.runIdx)) := by
  cases hfail : svc.failRun s.runIdx with
  | some e => simp [runLoop, hfail]
  | none => simp [runLoop, hfail]

theorem printsOf_eq_nil_of_runs (k : RunKind) (fv : Option (List ℚ)) :
    ∀ (l : List Ev), (∀ ev ∈ l, ∃ a b, ev = Ev.run k fv true a b) →
      printsOf l = [] := by
  intro l
  induction l with
  | nil => intro _; rfl
  | cons e t ih =>
      intro h
      obtain ⟨a, b, rfl⟩ := h e (List.mem_cons_self e t)
      simp [printsOf]
      exact ih fun ev hm => h ev (List.mem_cons_of_mem _ hm)

theorem reportsOf_eq_nil_of_runs (k : RunKind) (fv : Option (List ℚ)) :
    ∀ (l : List Ev), (∀ ev ∈ l, ∃ a b, ev = Ev.run k fv true a b) →
      reportsOf l = [] := by
  intro l
  induction l with
  | nil => intro _; rfl
  | cons e t ih =>
      intro h
      obtain ⟨a, b, rfl⟩ := h e (List.mem_cons_self e t)
      simp [reportsOf]
      exact ih fun ev hm => h ev (List.mem_cons_of_mem _ hm)

theorem untimedRuns_eq_nil_of_runs (k : RunKind) (fv : Option (List ℚ)) :
    ∀ (l : List Ev), (∀ ev ∈ l, ∃ a b, ev = Ev.run k fv true a b) →
      untimedRuns l = [] := by
  intro l
  induction l with
  | nil => intro _; rfl
  | cons e t ih =>
      intro h
      obtain ⟨a, b, rfl⟩ := h e (List.mem_cons_self e t)
      simp [untimedRuns]
      exact ih fun ev hm => h ev (List.mem_cons_of_mem _ hm)

theorem openResetEvents_eq_nil_of_runs (k : RunKind) (fv : Option (List ℚ)) :
    ∀ (l : List Ev), (∀ ev ∈ l, ∃ a b, ev = Ev.run k fv true a b) →
      openResetEvents l = [] := by
  intro l
  induction l with
  | nil => intro _; rfl
  | cons e t ih =>
      intro h
      obtain ⟨a, b, rfl⟩ := h e (List.mem_cons_self e t)
      simp [openResetEvents]
      exact ih fun ev hm => h ev (List.mem_cons_of_mem _ hm)

theorem payloadGens_eq_nil_of_runs (k : RunKind) (fv : Option (List ℚ)) :
    ∀ (l : List Ev), (∀ ev ∈ l, ∃ a b, ev = Ev.run k fv true a b) →
      payloadGens l = [] := by
  intro l
  induction l with
  | nil => intro _; rfl
  | cons e t ih =>
      intro h
      obtain ⟨a, b, rfl⟩ := h e (List.mem_cons_self e t)
      simp [payloadGens]
      exact ih fun ev hm => h ev (List.mem_cons_of_mem _ hm)

theorem timedRuns_eq_self_of_runs (k : RunKind) (fv : Option (List ℚ)) :
    ∀ (l : List Ev), (∀ ev ∈ l, ∃ a b, ev = Ev.run k fv true a b) →
      timedRuns l = l := by
  intro l
  induction l with
  | nil => intro _; rfl
  | cons e t ih =>
      intro h
      obtain ⟨a, b, rfl⟩ := h e (List.mem_cons_self e t)
      simp [timedRuns]
      exact ih fun ev hm => h ev (List.mem_cons_of_mem _ hm)

theorem runFeeds_of_runs (k : RunKind) (fv : Option (List ℚ)) :
    ∀ (l : List Ev), (∀ ev ∈ l, ∃ a b, ev = Ev.run k fv true a b) →
      runFeeds l = List.replicate l.length fv := by
  intro l
  induction l with
  | nil => intro _; rfl
  | cons e t ih =>
      intro h
      obtain ⟨a, b, rfl⟩ := h e (List.mem_cons_self e t)
      simp [runFeeds, List.replicate_succ]
      exact ih fun ev hm => h ev (List.mem_cons_of_mem _ hm)

theorem benchmarkFeed_eq (svc : Service) (name tgt : String) (size iters : Nat)
    (s : St) (hG : svc.failGraph = none) (hO : svc.failOpen = none)
    (hR : ∀ i, svc.failRun i = none) :
    benchmarkFeed svc name tgt size iters s =
      ⟨Ev.genPayload (svc.rand s.genIdx) :: Ev.graphCreate :: Ev.sessionOpen tgt ::
         Ev.run RunKind.noOp (some (svc.rand s.genIdx)) false s.clock
           (s.clock + svc.dur s.runIdx) ::
         ((runLoop svc RunKind.noOp (some (svc.rand s.genIdx)) iters
             ⟨s.clock + svc.dur s.runIdx, s.runIdx + 1, s.genIdx + 1⟩).trace ++
          [Ev.sessionClose,
           Ev.print (fmtLine name size
             (npMedian (runLoop svc RunKind.noOp (some (svc.rand s.genIdx)) iters
               ⟨s.clock + svc.dur s.runIdx, s.runIdx + 1, s.genIdx + 1⟩).times)),
           Ev.report name iters
             (npMedian (runLoop svc RunKind.noOp (some (svc.rand s.genIdx)) iters
               ⟨s.clock + svc.dur s.runIdx, s.runIdx + 1, s.genIdx + 1⟩).times)]),
       (runLoop svc RunKind.noOp (some (svc.rand s.genIdx)) iters
          ⟨s.clock + svc.dur s.runIdx, s.runIdx + 1, s.genIdx + 1⟩).state,
       none⟩ := by
  simp [benchmarkFeed, hG, hO, hR, runLoop_err_none svc _ _ hR]

theorem benchmarkFetch_eq (svc : Service) (name tgt : String) (size iters : Nat)
    (s : St) (hG : svc.failGraph = none) (hO : svc.failOpen = none)
    (hR : ∀ i, svc.failRun i = none) :
    benchmarkFetch svc name tgt size iters s =
      ⟨Ev.graphCreate :: Ev.sessionOpen tgt ::
         Ev.run RunKind.initVar none false s.clock (s.clock + svc.dur s.runIdx) ::
         Ev.run RunKind.fetchVar none false (s.clock + svc.dur s.runIdx)
           (s.clock + svc.dur s.runIdx + svc.dur (s.runIdx + 1)) ::
         ((runLoop svc RunKind.fetchVar none iters
             ⟨s.clock + svc.dur s.runIdx + svc.dur (s.runIdx + 1), s.runIdx + 1 + 1,
              s.genIdx⟩).trace ++
          [Ev.sessionClose,
           Ev.print (fmtLine name size
             (npMedian (runLoop svc RunKind.fetchVar none iters
               ⟨s.clock + svc.dur s.runIdx + svc.dur (s.runIdx + 1), s.runIdx + 1 + 1,
                s.genIdx⟩).times)),
           Ev.report name iters
             (npMedian (runLoop svc RunKind.fetchVar none iters
               ⟨s.clock + svc.dur s.runIdx + svc.dur (s.runIdx + 1), s.runIdx + 1 + 1,
                s.genIdx⟩).times)]),
       (runLoop svc RunKind.fetchVar none iters
          ⟨s.clock + svc.dur s.runIdx + svc.dur (s.runIdx + 1), s.runIdx + 1 + 1,
           s.genIdx⟩).state,
       none⟩ := by
  simp [benchmarkFetch, hG, hO, hR, runLoop_err_none svc _ _ hR]

theorem benchmarkFeed_err_none (svc : Service) (h : svc.noFail) (name tgt : String)
    (size iters : Nat) (s : St) :
    (benchmarkFeed svc name tgt size iters s).err = none := by
  rw [benchmarkFeed_eq svc name tgt size iters s h.1 h.2.1 h.2.2]

theorem benchmarkFetch_err_none (svc : Service) (h : svc.noFail) (name tgt : String)
    (size iters : Nat) (s : St) :
    (benchmarkFetch svc name tgt size iters s).err = none := by
  rw [benchmarkFetch_eq svc name tgt size iters s h.1 h.2.1 h.2.2]

theorem benchmarkFeed_openReset (svc : Service) (h : svc.noFail) (name tgt : String)
    (size iters : Nat) (s : St) :
    openResetEvents (benchmarkFeed svc name tgt size iters s).trace =
      [Ev.sessionOpen tgt] := by
  rw [benchmarkFeed_eq svc name tgt size iters s h.1 h.2.1 h.2.2]
  simp [openResetEvents, openResetEvents_append,
    openResetEvents_eq_nil_of_runs _ _ _ (runLoop_trace_forall svc _ _ iters _)]

theorem benchmarkFetch_openReset (svc : Service) (h : svc.noFail) (name tgt : String)
    (size iters : Nat) (s : St) :
    openResetEvents (benchmarkFetch svc name tgt size iters s).trace =
      [Ev.sessionOpen tgt] := by
  rw [benchmarkFetch_eq svc name tgt size iters s h.1 h.2.1 h.2.2]
  simp [openResetEvents, openResetEvents_append,
    openResetEvents_eq_nil_of_runs _ _ _ (runLoop_trace_forall svc _ _ iters _)]

theorem runLoop_err_cases (svc : Service) (k : RunKind) (fv : Option (List ℚ)) :
    ∀ (n : Nat) (s : St), (runLoop svc k fv n s).err = none ∨
      ∃ i e, svc.failRun i = some e ∧ (runLoop svc k fv n s).err = some e := by
  intro n
  induction n with
  | zero => intro s; exact Or.inl rfl
  | succ m ih =>
      intro s
      cases hfail : svc.failRun s.runIdx with
      | some e =>
          exact Or.inr ⟨s.runIdx, e, hfail, by simp [runLoop, hfail]⟩
      | none =>
          have hm := ih ⟨s.clock + svc.dur s.runIdx, s.runIdx + 1, s.genIdx⟩
          simpa [runLoop, hfail] using hm

/-- The all-or-nothing outcome shape of one measurement call: either it
completed with no exception, exactly one printed line and exactly one report
whose name and iters fields are the requested ones; or it raised, nothing was
printed or reported, and the propagated exception is exactly one raised by
the service (at graph construction, session open, or some `session.run`). -/
def allOrNothing (svc : Service) (name : String) (iters : Nat) (o : BenchOut) :
    Prop :=
  (o.err = none ∧ (∃ ln, printsOf o.trace = [ln]) ∧
    (∃ m, reportsOf o.trace = [(name, iters, m)])) ∨
  (∃ e, o.err = some e ∧ printsOf o.trace = [] ∧ reportsOf o.trace = [] ∧
    (svc.failGraph = some e ∨ svc.failOpen = some e ∨
      ∃ i, svc.failRun i = some e))

theorem benchmarkFeed_sole (svc : Service) (name tgt : String)
    (size iters : Nat) (s : St) :
    allOrNothing svc name iters (benchmarkFeed svc name tgt size iters s) := by
  unfold allOrNothing
  cases hG : svc.failGraph with
  | some e =>
      refine Or.inr ⟨e, ?_, ?_, ?_, Or.inl rfl⟩ <;>
        simp [benchmarkFeed, hG, printsOf, reportsOf]
  | none =>
  cases hO : svc.failOpen with
  | some e =>
      refine Or.inr ⟨e, ?_, ?_, ?_, Or.inr (Or.inl rfl)⟩ <;>
        simp [benchmarkFeed, hG, hO, printsOf, reportsOf]
  | none =>
  cases hW : svc.failRun s.runIdx with
  | some e =>
      refine Or.inr ⟨e, ?_, ?_, ?_, Or.inr (Or.inr ⟨s.runIdx, hW⟩)⟩ <;>
        simp [benchmarkFeed, hG, hO, hW, printsOf, reportsOf]
  | none =>
  rcases runLoop_err_cases svc RunKind.noOp (some (svc.rand s.genIdx)) iters
      ⟨s.clock + svc.dur s.runIdx, s.runIdx + 1, s.genIdx + 1⟩ with
    hE | ⟨i, e, hfi, hE⟩
  · refine Or.inl ⟨?_,
      ⟨fmtLine name size (npMedian (runLoop svc RunKind.noOp
        (some (svc.rand s.genIdx)) iters
        ⟨s.clock + svc.dur s.runIdx, s.runIdx + 1, s.genIdx + 1⟩).times), ?_⟩,
      ⟨npMedian (runLoop svc RunKind.noOp (some (svc.rand s.genIdx)) iters
        ⟨s.clock + svc.dur s.runIdx, s.runIdx + 1, s.genIdx + 1⟩).times, ?_⟩⟩ <;>
      simp [benchmarkFeed, hG, hO, hW, hE, printsOf, reportsOf,
        printsOf_append, reportsOf_append,
        printsOf_eq_nil_of_runs _ _ _ (runLoop_trace_forall svc _ _ iters _),
        reportsOf_eq_nil_of_runs _ _ _ (runLoop_trace_forall svc _ _ iters _)]
  · refine Or.inr ⟨e, ?_, ?_, ?_, Or.inr (Or.inr ⟨i, hfi⟩)⟩ <;>
      simp [benchmarkFeed, hG, hO, hW, hE, printsOf, reportsOf,
        printsOf_append, reportsOf_append,
        printsOf_eq_nil_of_runs _ _ _ (runLoop_trace_forall svc _ _ iters _),
        reportsOf_eq_nil_of_runs _ _ _ (runLoop_trace_forall svc _ _ iters _)]

theorem benchmarkFetch_sole (svc : Service) (name tgt : String)
    (size iters : Nat) (s : St) :
    allOrNothing svc name iters (benchmarkFetch svc name tgt size iters s) := by
  unfold allOrNothing
  cases hG : svc.failGraph with
  | some e =>
      refine Or.inr ⟨e, ?_, ?_, ?_, Or.inl rfl⟩ <;>
        simp [benchmarkFetch, hG, printsOf, reportsOf]
  | none =>
  cases hO : svc.failOpen with
  | some e =>
      refine Or.inr ⟨e, ?_, ?_, ?_, Or.inr (Or.inl rfl)⟩ <;>
        simp [benchmarkFetch, hG, hO, printsOf, reportsOf]
  | none =>
  cases hI : svc.failRun s.runIdx with
  | some e =>
      refine Or.inr ⟨e, ?_, ?_, ?_, Or.inr (Or.inr ⟨s.runIdx, hI⟩)⟩ <;>
        simp [benchmarkFetch, hG, hO, hI, printsOf, reportsOf]
  | none =>
  cases hW : svc.failRun (s.runIdx + 1) with
  | some e =>
      refine Or.inr ⟨e, ?_, ?_, ?_, Or.inr (Or.inr ⟨s.runIdx + 1, hW⟩)⟩ <;>
        simp [benchmarkFetch, hG, hO, hI, hW, printsOf, reportsOf]
  | none =>
  rcases runLoop_err_cases svc RunKind.fetchVar none iters
      ⟨s.clock + svc.dur s.runIdx + svc.dur (s.runIdx + 1), s.runIdx + 1 + 1,
       s.genIdx⟩ with hE | ⟨i, e, hfi, hE⟩
  · refine Or.inl ⟨?_,
      ⟨fmtLine name size (npMedian (runLoop svc RunKind.fetchVar none iters
        ⟨s.clock + svc.dur s.runIdx + svc.dur (s.runIdx + 1), s.runIdx + 1 + 1,
         s.genIdx⟩).times), ?_⟩,
      ⟨npMedian (runLoop svc RunKind.fetchVar none iters
        ⟨s.clock + svc.dur s.runIdx + svc.dur (s.runIdx + 1), s.runIdx + 1 + 1,
         s.genIdx⟩).times, ?_⟩⟩ <;>
      simp [benchmarkFetch, hG, hO, hI, hW, hE, printsOf, reportsOf,
        printsOf_append, reportsOf_append,
        printsOf_eq_nil_of_runs _ _ _ (runLoop_trace_forall svc _ _ iters _),
        reportsOf_eq_nil_of_runs _ _ _ (runLoop_trace_forall svc _ _ iters _)]
  · refine Or.inr ⟨e, ?_, ?_, ?_, Or.inr (Or.inr ⟨i, hfi⟩)⟩ <;>
      simp [benchmarkFetch, hG, hO, hI, hW, hE, printsOf, reportsOf,
        printsOf_append, reportsOf_append,
        printsOf_eq_nil_of_runs _ _ _ (runLoop_trace_forall svc _ _ iters _),
        reportsOf_eq_nil_of_runs _ _ _ (runLoop_trace_forall svc _ _ iters _)]

/-- The service of the spec's concrete scenario for the feed benchmark: the
three timed runs (global run indices 1, 2, 3; index 0 is the warm-up) last
0.5, 0.1 and 0.3 seconds, and nothing fails. -/
def svcC4 : Service :=
  ⟨fun i => if i = 1 then 1/2 else if i = 2 then 1/10 else if i = 3 then 3/10 else 1,
   fun _ => [0], none, none, fun _ => none⟩

/-- C1 counterexample: the claim that every case of `benchmarkDirectSession`
has the same iteration count as the corresponding case of
`benchmarkGrpcSession` (10000/100 for feed, 20000/100 for fetch) is false:
the direct suite uses 5000, 200, 5000, 100 while the grpc suite uses
10000, 100, 20000, 100, so already the first feed case differs (5000 vs
10000). -/
theorem directSuite_iters_differ :
    caseIters benchmarkDirectSessionSteps = [5000, 200, 5000, 100] ∧
    caseIters (benchmarkGrpcSessionSteps "grpc") = [10000, 100, 20000, 100] ∧
    caseIters benchmarkDirectSessionSteps ≠
      caseIters (benchmarkGrpcSessionSteps "grpc") := by
  decide

/-- C1 (amended): `benchmarkDirectSession` issues the same four measurement
modes and payload sizes in the same order as `benchmarkGrpcSession`, with
empty target and no reset calls, but with its own iteration counts — 5000
and 200 for the feed cases and 5000 and 100 for the fetch cases, against
10000, 100, 20000, 100 in the grpc suite. -/
theorem directSuite_same_cases_own_iters (tgt : String) :
    caseIsFeed benchmarkDirectSessionSteps =
      caseIsFeed (benchmarkGrpcSessionSteps tgt) ∧
    caseSizes benchmarkDirectSessionSteps =
      caseSizes (benchmarkGrpcSessionSteps tgt) ∧
    caseIters benchmarkDirectSessionSteps = [5000, 200, 5000, 100] ∧
    caseIters (benchmarkGrpcSessionSteps tgt) = [10000, 100, 20000, 100] ∧
    caseTargets benchmarkDirectSessionSteps = ["", "", "", ""] ∧
    resetTargets benchmarkDirectSessionSteps = [] ∧
    resetTargets (benchmarkGrpcSessionSteps tgt) = [tgt, tgt, tgt, tgt] :=
  ⟨rfl, rfl, rfl, rfl, rfl, rfl, rfl⟩

/-- C2 counterexample: `_benchmarkFetch` performs two untimed `session.run`
invocations, not one — the initializer run and the warm-up fetch — as
witnessed at iters = 1 against a service that never fails. -/
theorem fetch_two_untimed_runs :
    (untimedRuns (benchmarkFetch svcUnit "f" "" 1 1 st0).trace).length = 2 ∧
    (2 : Nat) ≠ 1 := by
  decide

/-- C2 (amended): for every measurement call with iters ≥ 1 against a
service that never fails, the reported median is computed over exactly
`iters` timed samples and the call performs exactly `iters` timed
`session.run` invocations; `_benchmarkFeed` additionally performs exactly
one untimed `session.run` (the warm-up) while `_benchmarkFetch` performs
exactly two (the initializer run and the warm-up fetch). -/
theorem measurement_run_counts (svc : Service) (name tgt : String)
    (size iters : Nat) (s : St) (h : svc.noFail) (_hi : 1 ≤ iters) :
    (timedRuns (benchmarkFeed svc name tgt size iters s).trace).length = iters ∧
    (untimedRuns (benchmarkFeed svc name tgt size iters s).trace).length = 1 ∧
    (timedDeltas (benchmarkFeed svc name tgt size iters s).trace).length = iters ∧
    reportsOf (benchmarkFeed svc name tgt size iters s).trace =
      [(name, iters,
        npMedian (timedDeltas (benchmarkFeed svc name tgt size iters s).trace))] ∧
    (timedRuns (benchmarkFetch svc name tgt size iters s).trace).length = iters ∧
    (untimedRuns (benchmarkFetch svc name tgt size iters s).trace).length = 2 ∧
    (timedDeltas (benchmarkFetch svc name tgt size iters s).trace).length = iters ∧
    reportsOf (benchmarkFetch svc name tgt size iters s).trace =
      [(name, iters,
        npMedian (timedDeltas (benchmarkFetch svc name tgt size iters s).trace))] := by
  obtain ⟨hG, hO, hR⟩ := h
  rw [benchmarkFeed_eq svc name tgt size iters s hG hO hR,
      benchmarkFetch_eq svc name tgt size iters s hG hO hR]
  simp [timedRuns, untimedRuns, timedDeltas, reportsOf,
    timedRuns_append, untimedRuns_append, timedDeltas_append, reportsOf_append,
    timedRuns_eq_self_of_runs _ _ _ (runLoop_trace_forall svc _ _ iters _),
    untimedRuns_eq_nil_of_runs _ _ _ (runLoop_trace_forall svc _ _ iters _),
    reportsOf_eq_nil_of_runs _ _ _ (runLoop_trace_forall svc _ _ iters _),
    runLoop_trace_length svc _ _ hR iters,
    runLoop_times_length svc _ _ hR iters,
    runLoop_timedDeltas svc _ _ hR iters]

/-- C2 witness: the amended run-count property instantiated at a concrete
never-failing service with one iteration. -/
theorem measurement_run_counts_witness :
    svcUnit.noFail ∧ 1 ≤ 1 ∧
    ((timedRuns (benchmarkFeed svcUnit "b" "" 1 1 st0).trace).length = 1 ∧
     (untimedRuns (benchmarkFeed svcUnit "b" "" 1 1 st0).trace).length = 1 ∧
     (timedDeltas (benchmarkFeed svcUnit "b" "" 1 1 st0).trace).length = 1 ∧
     reportsOf (benchmarkFeed svcUnit "b" "" 1 1 st0).trace =
       [("b", 1,
         npMedian (timedDeltas (benchmarkFeed svcUnit "b" "" 1 1 st0).trace))] ∧
     (timedRuns (benchmarkFetch svcUnit "b" "" 1 1 st0).trace).length = 1 ∧
     (untimedRuns (benchmarkFetch svcUnit "b" "" 1 1 st0).trace).length = 2 ∧
     (timedDeltas (benchmarkFetch svcUnit "b" "" 1 1 st0).trace).length = 1 ∧
     reportsOf (benchmarkFetch svcUnit "b" "" 1 1 st0).trace =
       [("b", 1,
         npMedian (timedDeltas (benchmarkFetch svcUnit "b" "" 1 1 st0).trace))]) :=
  ⟨⟨rfl, rfl, fun _ => rfl⟩, le_refl 1,
   measurement_run_counts svcUnit "b" "" 1 1 st0 ⟨rfl, rfl, fun _ => rfl⟩
     (le_refl 1)⟩

/-- C3: in `_benchmarkFetch` with iters ≥ 1 against a never-failing service,
the trace starts with graph construction, session open, the untimed
initializer run and the untimed warm-up fetch; the first timed fetch starts
exactly when the warm-up ends, which is strictly after initializer
completion whenever the warm-up has positive duration. -/
theorem fetch_init_warmup_before_timed (svc : Service) (name tgt : String)
    (size iters : Nat) (s : St) (h : svc.noFail) (hi : 1 ≤ iters)
    (hw : 0 < svc.dur (s.runIdx + 1)) :
    (∃ rest, (benchmarkFetch svc name tgt size iters s).trace =
        Ev.graphCreate :: Ev.sessionOpen tgt ::
        Ev.run RunKind.initVar none false s.clock (s.clock + svc.dur s.runIdx) ::
        Ev.run RunKind.fetchVar none false (s.clock + svc.dur s.runIdx)
          (s.clock + svc.dur s.runIdx + svc.dur (s.runIdx + 1)) :: rest) ∧
    (timedRuns (benchmarkFetch svc name tgt size iters s).trace).head? =
      some (Ev.run RunKind.fetchVar none true
        (s.clock + svc.dur s.runIdx + svc.dur (s.runIdx + 1))
        (s.clock + svc.dur s.runIdx + svc.dur (s.runIdx + 1) +
          svc.dur (s.runIdx + 1 + 1))) ∧
    s.clock + svc.dur s.runIdx <
      s.clock + svc.dur s.runIdx + svc.dur (s.runIdx + 1) := by
  obtain ⟨hG, hO, hR⟩ := h
  rw [benchmarkFetch_eq svc name tgt size iters s hG hO hR]
  refine ⟨⟨_, rfl⟩, ?_, lt_add_of_pos_right _ hw⟩
  obtain ⟨m, rfl⟩ : ∃ m, iters = m + 1 := ⟨iters - 1, by omega⟩
  simp only [timedRuns, timedRuns_append,
    timedRuns_eq_self_of_runs _ _ _ (runLoop_trace_forall svc _ _ (m + 1) _),
    List.append_nil]
  rw [runLoop_trace_headQ]

/-- C3 witness: the ordering property instantiated at a concrete
never-failing service with unit durations and one iteration. -/
theorem fetch_init_warmup_before_timed_witness :
    svcUnit.noFail ∧ 1 ≤ 1 ∧ 0 < svcUnit.dur (st0.runIdx + 1) ∧
    ((∃ rest, (benchmarkFetch svcUnit "f" "" 1 1 st0).trace =
        Ev.graphCreate :: Ev.sessionOpen "" ::
        Ev.run RunKind.initVar none false st0.clock
          (st0.clock + svcUnit.dur st0.runIdx) ::
        Ev.run RunKind.fetchVar none false (st0.clock + svcUnit.dur st0.runIdx)
          (st0.clock + svcUnit.dur st0.runIdx + svcUnit.dur (st0.runIdx + 1)) ::
          rest) ∧
     (timedRuns (benchmarkFetch svcUnit "f" "" 1 1 st0).trace).head? =
       some (Ev.run RunKind.fetchVar none true
         (st0.clock + svcUnit.dur st0.runIdx + svcUnit.dur (st0.runIdx + 1))
         (st0.clock + svcUnit.dur st0.runIdx + svcUnit.dur (st0.runIdx + 1) +
           svcUnit.dur (st0.runIdx + 1 + 1))) ∧
     st0.clock + svcUnit.dur st0.runIdx <
       st0.clock + svcUnit.dur st0.runIdx + svcUnit.dur (st0.runIdx + 1)) :=
  ⟨⟨rfl, rfl, fun _ => rfl⟩, le_refl 1, one_pos,
   fetch_init_warmup_before_timed svcUnit "f" "" 1 1 st0
     ⟨rfl, rfl, fun _ => rfl⟩ (le_refl 1) one_pos⟩

/-- C4: for name "t", target "", size 1, iters 3, when the three timed
executions last 0.5, 0.1 and 0.3 seconds, `_benchmarkFeed` reports exactly
one result with median wall time 0.3 and iters field 3, and the recorded
deltas are exactly [0.5, 0.1, 0.3]. -/
theorem feed_concrete_median :
    reportsOf (benchmarkFeed svcC4 "t" "" 1 3 st0).trace =
      [("t", 3, 3/10)] ∧
    timedDeltas (benchmarkFeed svcC4 "t" "" 1 3 st0).trace =
      [1/2, 1/10, 3/10] := by
  rw [benchmarkFeed_eq svcC4 "t" "" 1 3 st0 rfl rfl (fun i => rfl)]
  norm_num [svcC4, st0, runLoop, npMedian, sortQ, insertSorted, reportsOf,
    timedDeltas, reportsOf_append, timedDeltas_append]

/-- C5: for size ≥ 1 and iters ≥ 1, a completed `_benchmarkFeed` call
produces exactly one benchmark report, whose iters field equals the
requested iteration count. -/
theorem feed_single_report_iters (svc : Service) (name tgt : String)
    (size iters : Nat) (s : St) (h : svc.noFail) (_hsz : 1 ≤ size)
    (_hi : 1 ≤ iters) :
    ∃ m, reportsOf (benchmarkFeed svc name tgt size iters s).trace =
      [(name, iters, m)] := by
  obtain ⟨hG, hO, hR⟩ := h
  rw [benchmarkFeed_eq svc name tgt size iters s hG hO hR]
  refine ⟨npMedian (runLoop svc RunKind.noOp (some (svc.rand s.genIdx)) iters
    ⟨s.clock + svc.dur s.runIdx, s.runIdx + 1, s.genIdx + 1⟩).times, ?_⟩
  simp [reportsOf, reportsOf_append,
    reportsOf_eq_nil_of_runs _ _ _ (runLoop_trace_forall svc _ _ iters _)]

/-- C5 witness: the single-report property instantiated at a concrete
never-failing service with size 1 and one iteration. -/
theorem feed_single_report_iters_witness :
    svcUnit.noFail ∧ 1 ≤ 1 ∧
    ∃ m, reportsOf (benchmarkFeed svcUnit "b" "" 1 1 st0).trace =
      [("b", 1, m)] :=
  ⟨⟨rfl, rfl, fun _ => rfl⟩, le_refl 1,
   feed_single_report_iters svcUnit "b" "" 1 1 st0 ⟨rfl, rfl, fun _ => rfl⟩
     (le_refl 1) (le_refl 1)⟩

/-- C6: in a completed `_benchmarkFeed` call the payload is generated by
exactly one `np.random.rand` call, which precedes session opening, and the
identical unmodified payload is bound to the placeholder in the warm-up run
and in every one of the iters timed runs. -/
theorem feed_payload_generated_once (svc : Service) (name tgt : String)
    (size iters : Nat) (s : St) (h : svc.noFail) :
    (∃ rest, (benchmarkFeed svc name tgt size iters s).trace =
        Ev.genPayload (svc.rand s.genIdx) :: Ev.graphCreate ::
          Ev.sessionOpen tgt :: rest) ∧
    payloadGens (benchmarkFeed svc name tgt size iters s).trace =
      [svc.rand s.genIdx] ∧
    runFeeds (benchmarkFeed svc name tgt size iters s).trace =
      List.replicate (iters + 1) (some (svc.rand s.genIdx)) := by
  obtain ⟨hG, hO, hR⟩ := h
  rw [benchmarkFeed_eq svc name tgt size iters s hG hO hR]
  refine ⟨⟨_, rfl⟩, ?_, ?_⟩
  · simp [payloadGens, payloadGens_append,
      payloadGens_eq_nil_of_runs _ _ _ (runLoop_trace_forall svc _ _ iters _)]
  · simp [runFeeds, runFeeds_append, List.replicate_succ,
      runFeeds_of_runs _ _ _ (runLoop_trace_forall svc _ _ iters _),
      runLoop_trace_length svc _ _ hR iters]

/-- C6 witness: the payload invariant instantiated at a concrete
never-failing service with two iterations. -/
theorem feed_payload_generated_once_witness :
    svcUnit.noFail ∧
    ((∃ rest, (benchmarkFeed svcUnit "b" "" 1 2 st0).trace =
        Ev.genPayload (svcUnit.rand st0.genIdx) :: Ev.graphCreate ::
          Ev.sessionOpen "" :: rest) ∧
     payloadGens (benchmarkFeed svcUnit "b" "" 1 2 st0).trace =
       [svcUnit.rand st0.genIdx] ∧
     runFeeds (benchmarkFeed svcUnit "b" "" 1 2 st0).trace =
       List.replicate (2 + 1) (some (svcUnit.rand st0.genIdx))) :=
  ⟨⟨rfl, rfl, fun _ => rfl⟩,
   feed_payload_generated_once svcUnit "b" "" 1 2 st0 ⟨rfl, rfl, fun _ => rfl⟩⟩

/-- C7: every completed measurement call writes exactly one line to standard
output, consisting of the case name, the payload size as a decimal integer,
and the median of the timed samples in `%f` formatting, space-separated, in
that order. -/
theorem measurement_prints_one_line (svc : Service) (name tgt : String)
    (size iters : Nat) (s : St) (h : svc.noFail) :
    printsOf (benchmarkFeed svc name tgt size iters s).trace =
      [name ++ " " ++ toString size ++ " " ++
        fmtFloat (npMedian
          (timedDeltas (benchmarkFeed svc name tgt size iters s).trace))] ∧
    printsOf (benchmarkFetch svc name tgt size iters s).trace =
      [name ++ " " ++ toString size ++ " " ++
        fmtFloat (npMedian
          (timedDeltas (benchmarkFetch svc name tgt size iters s).trace))] := by
  obtain ⟨hG, hO, hR⟩ := h
  rw [benchmarkFeed_eq svc name tgt size iters s hG hO hR,
      benchmarkFetch_eq svc name tgt size iters s hG hO hR]
  simp [printsOf, timedDeltas, printsOf_append, timedDeltas_append,
    printsOf_eq_nil_of_runs _ _ _ (runLoop_trace_forall svc _ _ iters _),
    runLoop_timedDeltas svc _ _ hR iters, fmtLine]

/-- C7 witness: the one-line output format instantiated at a concrete
never-failing service. -/
theorem measurement_prints_one_line_witness :
    svcUnit.noFail ∧
    (printsOf (benchmarkFeed svcUnit "b" "" 1 1 st0).trace =
      ["b" ++ " " ++ toString 1 ++ " " ++
        fmtFloat (npMedian
          (timedDeltas (benchmarkFeed svcUnit "b" "" 1 1 st0).trace))] ∧
     printsOf (benchmarkFetch svcUnit "b" "" 1 1 st0).trace =
      ["b" ++ " " ++ toString 1 ++ " " ++
        fmtFloat (npMedian
          (timedDeltas (benchmarkFetch svcUnit "b" "" 1 1 st0).trace))]) :=
  ⟨⟨rfl, rfl, fun _ => rfl⟩,
   measurement_prints_one_line svcUnit "b" "" 1 1 st0 ⟨rfl, rfl, fun _ => rfl⟩⟩

/-- C8: in `benchmarkGrpcSession` against a never-failing service, the
subsequence of session-open and reset events is exactly open, reset, open,
reset, open, reset, open, reset — a reset after each of the four cases and
before the next case's session is opened, all against the server target. -/
theorem grpc_reset_between_cases (svc : Service) (tgt : String) (s : St)
    (h : svc.noFail) :
    openResetEvents (benchmarkGrpcSession svc tgt s).trace =
      [Ev.sessionOpen tgt, Ev.reset tgt, Ev.sessionOpen tgt, Ev.reset tgt,
       Ev.sessionOpen tgt, Ev.reset tgt, Ev.sessionOpen tgt, Ev.reset tgt] := by
  simp [benchmarkGrpcSession, benchmarkGrpcSessionSteps, runSteps, runStep,
    benchmarkFeed_err_none svc h, benchmarkFetch_err_none svc h,
    openResetEvents_append, benchmarkFeed_openReset svc h,
    benchmarkFetch_openReset svc h, openResetEvents]

/-- C8 witness: the reset-ordering property instantiated at a concrete
never-failing service. -/
theorem grpc_reset_between_cases_witness :
    svcUnit.noFail ∧
    openResetEvents (benchmarkGrpcSession svcUnit "local" st0).trace =
      [Ev.sessionOpen "local", Ev.reset "local", Ev.sessionOpen "local",
       Ev.reset "local", Ev.sessionOpen "local", Ev.reset "local",
       Ev.sessionOpen "local", Ev.reset "local"] :=
  ⟨⟨rfl, rfl, fun _ => rfl⟩,
   grpc_reset_between_cases svcUnit "local" st0 ⟨rfl, rfl, fun _ => rfl⟩⟩

/-- C9: each measurement call is all-or-nothing: either it completes with no
exception, exactly one printed line and exactly one report carrying the
requested name and iteration count, or an exception raised by the external
service (at graph construction, session open, or some `session.run`)
propagates unmodified and nothing is printed or reported. -/
theorem measurement_all_or_nothing (svc : Service) (name tgt : String)
    (size iters : Nat) (s : St) :
    allOrNothing svc name iters (benchmarkFeed svc name tgt size iters s) ∧
    allOrNothing svc name iters (benchmarkFetch svc name tgt size iters s) :=
  ⟨benchmarkFeed_sole svc name tgt size iters s,
   benchmarkFetch_sole svc name tgt size iters s⟩

/-- C10: in a completed call of either measurement, the median printed to
standard output and the wall_time handed to `report_benchmark` are the same
value. -/
theorem printed_median_eq_reported (svc : Service) (name tgt : String)
    (size iters : Nat) (s : St) (h : svc.noFail) :
    (∃ m, printsOf (benchmarkFeed svc name tgt size iters s).trace =
        [fmtLine name size m] ∧
      reportsOf (benchmarkFeed svc name tgt size iters s).trace =
        [(name, iters, m)]) ∧
    (∃ m, printsOf (benchmarkFetch svc name tgt size iters s).trace =
        [fmtLine name size m] ∧
      reportsOf (benchmarkFetch svc name tgt size iters s).trace =
        [(name, iters, m)]) := by
  obtain ⟨hG, hO, hR⟩ := h
  rw [benchmarkFeed_eq svc name tgt size iters s hG hO hR,
      benchmarkFetch_eq svc name tgt size iters s hG hO hR]
  constructor
  · refine ⟨npMedian (runLoop svc RunKind.noOp (some (svc.rand s.genIdx)) iters
      ⟨s.clock + svc.dur s.runIdx, s.runIdx + 1, s.genIdx + 1⟩).times, ?_, ?_⟩ <;>
      simp [printsOf, reportsOf, printsOf_append, reportsOf_append,
        printsOf_eq_nil_of_runs _ _ _ (runLoop_trace_forall svc _ _ iters _),
        reportsOf_eq_nil_of_runs _ _ _ (runLoop_trace_forall svc _ _ iters _)]
  · refine ⟨npMedian (runLoop svc RunKind.fetchVar none iters
      ⟨s.clock + svc.dur s.runIdx + svc.dur (s.runIdx + 1), s.runIdx + 1 + 1,
       s.genIdx⟩).times, ?_, ?_⟩ <;>
      simp [printsOf, reportsOf, printsOf_append, reportsOf_append,
        printsOf_eq_nil_of_runs _ _ _ (runLoop_trace_forall svc _ _ iters _),
        reportsOf_eq_nil_of_runs _ _ _ (runLoop_trace_forall svc _ _ iters _)]

/-- C10 witness: printed-equals-reported instantiated at a concrete
never-failing service. -/
theorem printed_median_eq_reported_witness :
    svcUnit.noFail ∧
    ((∃ m, printsOf (benchmarkFeed svcUnit "b" "" 1 1 st0).trace =
        [fmtLine "b" 1 m] ∧
      reportsOf (benchmarkFeed svcUnit "b" "" 1 1 st0).trace =
        [("b", 1, m)]) ∧
     (∃ m, printsOf (benchmarkFetch svcUnit "b" "" 1 1 st0).trace =
        [fmtLine "b" 1 m] ∧
      reportsOf (benchmarkFetch svcUnit "b" "" 1 1 st0).trace =
        [("b", 1, m)])) :=
  ⟨⟨rfl, rfl, fun _ => rfl⟩,
   printed_median_eq_reported svcUnit "b" "" 1 1 st0 ⟨rfl, rfl, fun _ => rfl⟩⟩

end SessionBenchmark
